import Mathlib

/-!
Shallow embedding of the WebSocket connection multiplexer from
`src/frontend/src/services/websocket.js` (class `WebSocketService`), together
with theorems settling the behavioural claims about it.

Modelling conventions:
- JS strings are `String`; the optional `taskId` argument is a small JS value
  type `TaskId` with explicit truthiness matching JS coercion.
- The auth token is `Option String`; JS `!token` is `tokenTruthy token = false`
  (absent, or the empty string, are falsy).
- The three instance maps `connections`, `listeners`, `connectionStatus` are
  total functions returning `Option`, where `none` models an absent property.
- A listener callback is a tagged function into `Except String Unit`; a
  `.error` result models the callback throwing. Reference equality of JS
  callbacks is modelled by the tag.
- Each transport handler (onopen, onmessage, onclose, onerror) is a pure
  function from state to state plus an observation trace: the list of caught
  per-callback outcomes (the dispatch trace) and, for onmessage, the list of
  outbound frames sent.
- `new WebSocket(url)` is modelled as allocating a fresh socket id from a
  counter carried in the state, paired with the constructed URL.
-/

namespace FinexiaWS

/-- JS value passed as the optional `taskId` argument. -/
inductive TaskId where
  | null
  | undefined
  | num (n : Int)
  | str (s : String)
deriving DecidableEq, Repr

/-- JS truthiness of a `taskId` value: `null`, `undefined`, `0` and the empty
string are falsy. -/
def TaskId.truthy : TaskId → Bool
  | .null => false
  | .undefined => false
  | .num n => n != 0
  | .str s => s != ""

/-- String interpolation of a `taskId` value, as in the template literal of the
source. Only ever applied to truthy values by the operations below. -/
def TaskId.render : TaskId → String
  | .null => "null"
  | .undefined => "undefined"
  | .num n => toString n
  | .str s => s

/-- Derivation of the connection key, from the source:
`const connectionKey = taskId ? ` the interpolation of topic, an underscore and
taskId ` : topic`. -/
def connectionKey (topic : String) (taskId : TaskId) : String :=
  if taskId.truthy then topic ++ "_" ++ taskId.render else topic

/-- JS truthiness of the auth token read from the auth store: absent or empty
is falsy (`if (!token) ...`). -/
def tokenTruthy : Option String → Bool
  | none => false
  | some s => s != ""

/-- Parsed inbound message; the multiplexer only inspects the `type` field. -/
structure Msg where
  type : String
deriving DecidableEq, Repr

/-- Payload handed to a listener callback: either a parsed inbound message, a
synthetic connection event carrying a status, or a synthetic error event. -/
inductive Data where
  | msg (m : Msg)
  | connection (status : String)
  | errorEvt
deriving DecidableEq, Repr

/-- Listener callback: a tag modelling JS reference identity, and a behaviour
that either returns or throws (`.error`). -/
structure Callback where
  id : Nat
  fn : Data → Except String Unit

/-- Raw inbound frame: either text that fails structured parsing, or a frame
that parses to a message. -/
inductive Frame where
  | malformed (raw : String)
  | wellFormed (m : Msg)
deriving DecidableEq, Repr

/-- JSON.parse on a frame: throws (`.error`) on a malformed frame. -/
def parseFrameE : Frame → Except String Msg
  | .malformed raw => .error ("parse error: " ++ raw)
  | .wellFormed m => .ok m

/-- Underlying socket handle: fresh allocation id and the URL it was opened
with. -/
structure Socket where
  id : Nat
  url : String
deriving DecidableEq, Repr

/-- Instance state of `WebSocketService`: the three maps of the class plus an
allocation counter for fresh sockets. -/
structure WSState where
  connections : String → Option Socket
  listeners : String → String → Option (List Callback)
  connectionStatus : String → Option String
  nextSocketId : Nat

/-- Point update of a one-argument map. -/
def fupd {α : Type} (f : String → α) (k : String) (v : α) : String → α :=
  fun k2 => if k2 = k then v else f k2

/-- Invocation of one callback under the per-iteration try/catch of the
dispatch loop: a thrown error is caught (and logged), yielding `some e`. -/
def invokeCaught (cb : Callback) (d : Data) : Option String :=
  match cb.fn d with
  | .ok _ => none
  | .error e => some e

/-- The forEach dispatch loop over a callback list, run in the exception
monad: each iteration wraps the callback call in try/catch, so only the
(impossible) escape of an exception would surface as `.error`. The `.ok`
value is the trace of caught outcomes, in invocation order. -/
def forEachTry : List Callback → Data → Except String (List (Option String))
  | [], _ => .ok []
  | cb :: rest, d =>
    let r := invokeCaught cb d
    match forEachTry rest d with
    | .ok tr => .ok (r :: tr)
    | .error e => .error e

/-- The `_notifyListeners` method, run in the exception monad: if no registry
entry exists for the key and event type, no-op; otherwise run the dispatch
loop. -/
def notifyListenersE (st : WSState) (key ev : String) (d : Data) :
    Except String (List (Option String)) :=
  match st.listeners key ev with
  | none => .ok []
  | some cbs => forEachTry cbs d

/-- Pure observable behaviour of `_notifyListeners`: the trace of caught
per-callback outcomes, in registration order. Agreement with the monadic
embedding `notifyListenersE` is proved below. -/
def notifyListeners (st : WSState) (key ev : String) (d : Data) :
    List (Option String) :=
  match st.listeners key ev with
  | none => []
  | some cbs => cbs.map (fun cb => invokeCaught cb d)

/-- URL construction of `connect`: base, topic segment, optional task segment,
token query parameter. -/
def wsUrl (base topic : String) (taskId : TaskId) (token : Option String) : String :=
  base ++ "/ws/" ++ topic ++
    (if taskId.truthy then "/" ++ taskId.render else "") ++
    "?token=" ++ token.getD ""

/-- The `connect` method. Returns the JS boolean result and the updated state.
No token: fail with no state change. Existing record under the key: return
true with no state change. Otherwise allocate a socket, record it and set
status connecting. -/
def connect (base : String) (st : WSState) (token : Option String)
    (topic : String) (taskId : TaskId) : Bool × WSState :=
  if tokenTruthy token = false then (false, st)
  else
    let key := connectionKey topic taskId
    match st.connections key with
    | some _ => (true, st)
    | none =>
      (true, { st with
        connections := fupd st.connections key
          (some { id := st.nextSocketId, url := wsUrl base topic taskId token }),
        connectionStatus := fupd st.connectionStatus key (some "connecting"),
        nextSocketId := st.nextSocketId + 1 })

/-- Key-level body of `disconnect`: returns the JS boolean, the updated state,
and the socket that `.close()` was called on, if any. -/
def disconnectKey (st : WSState) (key : String) : Bool × WSState × Option Socket :=
  match st.connections key with
  | some sock =>
    (true,
     { st with
       connections := fupd st.connections key none,
       connectionStatus := fupd st.connectionStatus key (some "disconnected") },
     some sock)
  | none => (false, st, none)

/-- The `disconnect` method. -/
def disconnect (st : WSState) (topic : String) (taskId : TaskId) :
    Bool × WSState × Option Socket :=
  disconnectKey st (connectionKey topic taskId)

/-- The `addListener` method: append the callback under (key, eventType),
creating the entry as needed. -/
def addListener (st : WSState) (topic : String) (taskId : TaskId)
    (ev : String) (cb : Callback) : WSState :=
  let key := connectionKey topic taskId
  { st with listeners := fun k e =>
      if k = key ∧ e = ev then some ((st.listeners k e).getD [] ++ [cb])
      else st.listeners k e }

/-- The `removeListener` method: false when no entry exists for
(key, eventType); otherwise filter out entries reference-equal to the given
callback and return true. -/
def removeListener (st : WSState) (topic : String) (taskId : TaskId)
    (ev : String) (cb : Callback) : Bool × WSState :=
  let key := connectionKey topic taskId
  match st.listeners key ev with
  | none => (false, st)
  | some cbs =>
    (true, { st with listeners := fun k e =>
        if k = key ∧ e = ev then some (cbs.filter (fun c => c.id != cb.id))
        else st.listeners k e })

/-- JS `x || "disconnected"` over the stored status. -/
def statusOrDefault : Option String → String
  | none => "disconnected"
  | some s => if s = "" then "disconnected" else s

/-- The `getStatus` method. -/
def getStatus (st : WSState) (topic : String) (taskId : TaskId) : String :=
  statusOrDefault (st.connectionStatus (connectionKey topic taskId))

/-- Status read at an already-derived key. -/
def getStatusKey (st : WSState) (key : String) : String :=
  statusOrDefault (st.connectionStatus key)

/-- The onopen handler: set status connected, then dispatch the synthetic
connection event. Returns the new state and the dispatch trace. -/
def onOpen (st : WSState) (key : String) : WSState × List (Option String) :=
  let st1 := { st with connectionStatus := fupd st.connectionStatus key (some "connected") }
  (st1, notifyListeners st1 key "connection" (.connection "connected"))

/-- The onmessage handler. The whole body runs under a try/catch: a parse
failure is caught and logged, yielding no dispatch, no send and no state
change. On success, dispatch by the declared type, then (after dispatch) if
the type is heartbeat send the literal text heartbeat on the live socket; if
the record is gone the send throws and is caught, with the dispatch already
performed. Returns the state, the dispatch trace, and the frames sent. -/
def onMessage (st : WSState) (key : String) (frame : Frame) :
    WSState × List (Option String) × List String :=
  match parseFrameE frame with
  | .error _ => (st, [], [])
  | .ok m =>
    let tr := notifyListeners st key m.type (.msg m)
    if m.type = "heartbeat" then
      match st.connections key with
      | some _ => (st, tr, ["heartbeat"])
      | none => (st, tr, [])
    else (st, tr, [])

/-- The onclose handler: set status disconnected, dispatch the synthetic
connection event, then delete the record. The listener map is untouched. -/
def onClose (st : WSState) (key : String) : WSState × List (Option String) :=
  let st1 := { st with connectionStatus := fupd st.connectionStatus key (some "disconnected") }
  let tr := notifyListeners st1 key "connection" (.connection "disconnected")
  let st2 := { st1 with connections := fupd st1.connections key none }
  (st2, tr)

/-- The onerror handler: set status error and dispatch the synthetic error
event; the record is not removed. -/
def onError (st : WSState) (key : String) : WSState × List (Option String) :=
  let st1 := { st with connectionStatus := fupd st.connectionStatus key (some "error") }
  (st1, notifyListeners st1 key "error" .errorEvt)

/-- Events that can reach one connection instance after `connect` created it:
the three transport callbacks attached to the socket, inbound frames, and a
`disconnect` call by the application. -/
inductive WSEvent where
  | openEvt
  | message (f : Frame)
  | errorEvt
  | closeEvt
  | disconnectCall
deriving DecidableEq, Repr

/-- Effect of one event on the service state, at the instance key. -/
def stepEvent (st : WSState) (key : String) : WSEvent → WSState
  | .openEvt => (onOpen st key).1
  | .message f => (onMessage st key f).1
  | .errorEvt => (onError st key).1
  | .closeEvt => (onClose st key).1
  | .disconnectCall => (disconnectKey st key).2.1

/-- Recorded status (as `getStatus` reports it) after each event of a run. -/
def statusTrace (st : WSState) (key : String) : List WSEvent → List String
  | [] => []
  | e :: es =>
    let st2 := stepEvent st key e
    getStatusKey st2 key :: statusTrace st2 key es

/-- Whether an event is the open callback. -/
def WSEvent.isOpen : WSEvent → Bool
  | .openEvt => true
  | _ => false

/-- Whether an event is the error callback. -/
def WSEvent.isErr : WSEvent → Bool
  | .errorEvt => true
  | _ => false

/-- No open callback occurs in the run. -/
def noOpen : List WSEvent → Bool
  | [] => true
  | e :: es => !e.isOpen && noOpen es

/-- Neither an open nor an error callback occurs in the run. -/
def noOpenErr : List WSEvent → Bool
  | [] => true
  | e :: es => !e.isOpen && !e.isErr && noOpenErr es

/-- Browser transport ordering for the events delivered to one socket
instance: the open callback never fires after an error or close callback or
after the application closed the socket, and the error callback never fires
after the close callback. The error callback MAY fire after the application
called close: closing a still-connecting socket fails the connection, which
fires error and then close. -/
def validRun : List WSEvent → Bool
  | [] => true
  | e :: es =>
    (match e with
     | .errorEvt => noOpen es
     | .closeEvt => noOpenErr es
     | .disconnectCall => noOpen es
     | _ => true) && validRun es

/-- Status transitions the monotonicity invariant of the specification allows
for one instance: stay put, or move forward along connecting, connected,
error, disconnected, where error may be skipped or entered from connecting or
connected, and disconnected is terminal. -/
def allowedStep (s t : String) : Bool :=
  (s == t) ||
  (s == "connecting" && (t == "connected" || t == "error" || t == "disconnected")) ||
  (s == "connected" && (t == "error" || t == "disconnected")) ||
  (s == "error" && t == "disconnected")

/-- Status transitions the implementation actually takes: allowedStep plus
the one transition out of disconnected, taken when the error callback of a
socket the application already disconnected overwrites the recorded status
with error. -/
def allowedStepAmended (s t : String) : Bool :=
  allowedStep s t || (s == "disconnected" && t == "error")

/-- Adjacent elements of the list, seeded with a start value, all satisfy the
step relation. -/
def chainB (r : String → String → Bool) : String → List String → Bool
  | _, [] => true
  | s, t :: rest => r s t && chainB r t rest

/-- Empty service state: no connections, no listeners, no statuses. -/
def emptyState : WSState :=
  { connections := fun _ => none
    listeners := fun _ _ => none
    connectionStatus := fun _ => none
    nextSocketId := 0 }

/-- Callback that returns normally. -/
def cbIdle : Callback :=
  { id := 0, fn := fun _ => .ok () }

/-- Callback that throws. -/
def cbThrow : Callback :=
  { id := 1, fn := fun _ => .error "boom" }

/-- Concrete state with a live connection under key jobs and one listener
registered for event type heartbeat and one for event type connection. -/
def hbState : WSState :=
  { connections := fun k => if k = "jobs" then some { id := 0, url := "u" } else none
    listeners := fun k e =>
      if k = "jobs" ∧ e = "heartbeat" then some [cbIdle]
      else if k = "jobs" ∧ e = "connection" then some [cbIdle]
      else none
    connectionStatus := fun k => if k = "jobs" then some "connected" else none
    nextSocketId := 1 }

/-- Concrete state with a throwing callback followed by a normal callback
registered under key t, event type x. -/
def twoCbState : WSState :=
  { connections := fun _ => none
    listeners := fun k e => if k = "t" ∧ e = "x" then some [cbThrow, cbIdle] else none
    connectionStatus := fun _ => none
    nextSocketId := 0 }

/-- Point update read back at the written key. -/
theorem fupd_self {α : Type} (f : String → α) (k : String) (v : α) :
    fupd f k v k = v := by
  simp [fupd]

/-- Point update read back at a different key. -/
theorem fupd_ne {α : Type} (f : String → α) (k k2 : String) (v : α)
    (h : k2 ≠ k) : fupd f k v k2 = f k2 := by
  simp [fupd, h]

/-- C5: with no obtainable authentication token, connect returns false and
has no side effects: the state (connections, listeners, statuses, allocation
counter) is returned untouched. -/
theorem connect_no_token (base : String) (st : WSState) (token : Option String)
    (topic : String) (taskId : TaskId) (h : tokenTruthy token = false) :
    connect base st token topic taskId = (false, st) := by
  simp [connect, h]

/-- Witness for connect_no_token at a concrete input. -/
theorem connect_no_token_witness :
    tokenTruthy none = false ∧
    connect "ws://h" emptyState none "jobs" TaskId.null = (false, emptyState) :=
  ⟨rfl, connect_no_token "ws://h" emptyState none "jobs" TaskId.null rfl⟩

/-- C7: a non-parseable inbound frame is caught inside the onmessage handler
(the handler is a total function, so nothing propagates), the state and hence
the recorded status are unchanged, no listener is invoked and nothing is
sent. -/
theorem onMessage_malformed (st : WSState) (key : String) (frame : Frame)
    (e : String) (h : parseFrameE frame = .error e) :
    onMessage st key frame = (st, [], []) := by
  simp [onMessage, h]

/-- Witness for onMessage_malformed at a concrete input. -/
theorem onMessage_malformed_witness :
    parseFrameE (Frame.malformed "oops") = .error "parse error: oops" ∧
    onMessage hbState "jobs" (Frame.malformed "oops") = (hbState, [], []) :=
  ⟨rfl, onMessage_malformed hbState "jobs" (Frame.malformed "oops") "parse error: oops" rfl⟩

/-- C4: with a valid token, connect is idempotent: both calls return true,
the second call changes no state, and the derived key holds exactly one live
socket afterwards. -/
theorem connect_idempotent (base : String) (st : WSState) (token : Option String)
    (topic : String) (taskId : TaskId) (h : tokenTruthy token = true) :
    (connect base st token topic taskId).1 = true ∧
    (connect base (connect base st token topic taskId).2 token topic taskId).1 = true ∧
    (connect base (connect base st token topic taskId).2 token topic taskId).2
      = (connect base st token topic taskId).2 ∧
    ((connect base st token topic taskId).2.connections (connectionKey topic taskId)).isSome = true := by
  cases hm : st.connections (connectionKey topic taskId) with
  | some sock => simp [connect, h, hm]
  | none => simp [connect, h, hm, fupd]

/-- Witness for connect_idempotent at a concrete input. -/
theorem connect_idempotent_witness :
    tokenTruthy (some "tk") = true ∧
    (connect "ws://h" emptyState (some "tk") "jobs" TaskId.null).1 = true ∧
    ((connect "ws://h" emptyState (some "tk") "jobs" TaskId.null).2.connections
      (connectionKey "jobs" TaskId.null)).isSome = true := by
  have h := connect_idempotent "ws://h" emptyState (some "tk") "jobs" TaskId.null (by decide)
  exact ⟨by decide, h.1, h.2.2.2⟩

/-- C6: disconnect on a key with a live record closes that socket, removes the
record, sets the status of the key to disconnected, returns true and touches
no other key and no listener; on a key without a live record it returns false
and changes nothing. -/
theorem disconnect_spec (st : WSState) (topic : String) (taskId : TaskId) :
    (∀ sock, st.connections (connectionKey topic taskId) = some sock →
      (disconnect st topic taskId).1 = true ∧
      (disconnect st topic taskId).2.2 = some sock ∧
      (disconnect st topic taskId).2.1.connections (connectionKey topic taskId) = none ∧
      (disconnect st topic taskId).2.1.connectionStatus (connectionKey topic taskId)
        = some "disconnected" ∧
      (disconnect st topic taskId).2.1.listeners = st.listeners ∧
      (∀ k, k ≠ connectionKey topic taskId →
        (disconnect st topic taskId).2.1.connections k = st.connections k ∧
        (disconnect st topic taskId).2.1.connectionStatus k = st.connectionStatus k)) ∧
    (st.connections (connectionKey topic taskId) = none →
      disconnect st topic taskId = (false, st, none)) := by
  constructor
  · intro sock hm
    refine ⟨?_, ?_, ?_, ?_, ?_, ?_⟩ <;>
      simp [disconnect, disconnectKey, hm, fupd]
    intro k hk
    simp [hk]
  · intro hm
    simp [disconnect, disconnectKey, hm]

/-- Witness for disconnect_spec: both branches at concrete inputs. -/
theorem disconnect_spec_witness :
    hbState.connections (connectionKey "jobs" TaskId.null) = some { id := 0, url := "u" } ∧
    (disconnect hbState "jobs" TaskId.null).1 = true ∧
    (disconnect hbState "jobs" TaskId.null).2.1.connections "jobs" = none ∧
    emptyState.connections (connectionKey "jobs" TaskId.null) = none ∧
    disconnect emptyState "jobs" TaskId.null = (false, emptyState, none) := by
  have h1 := (disconnect_spec hbState "jobs" TaskId.null).1 { id := 0, url := "u" } (by decide)
  have h2 := (disconnect_spec emptyState "jobs" TaskId.null).2 (by decide)
  exact ⟨by decide, h1.1, h1.2.2.1, by decide, h2⟩

/-- C3: the dispatch loop, run in the exception monad, always terminates with
an ok result (no exception escapes to the transport handler), is a no-op when
no registry entry exists, and otherwise invokes every registered callback in
insertion order, each under its own try/catch, so a throwing callback never
prevents the remaining callbacks of the same dispatch from running. -/
theorem notify_dispatch (st : WSState) (key ev : String) (d : Data) :
    notifyListenersE st key ev d = .ok (notifyListeners st key ev d) ∧
    (st.listeners key ev = none → notifyListeners st key ev d = []) ∧
    (∀ cbs, st.listeners key ev = some cbs →
      notifyListeners st key ev d = cbs.map (fun cb => invokeCaught cb d)) := by
  have hfe : ∀ cbs : List Callback,
      forEachTry cbs d = .ok (cbs.map (fun cb => invokeCaught cb d)) := by
    intro cbs
    induction cbs with
    | nil => rfl
    | cons cb rest ih => simp [forEachTry, ih]
  refine ⟨?_, ?_, ?_⟩
  · cases hm : st.listeners key ev with
    | none => simp [notifyListenersE, notifyListeners, hm]
    | some cbs => simp [notifyListenersE, notifyListeners, hm, hfe]
  · intro hm
    simp [notifyListeners, hm]
  · intro cbs hm
    simp [notifyListeners, hm]

/-- Witness for notify_dispatch at a registry holding a throwing callback
followed by a normal one: the throwing callback is caught, the second still
runs, and the loop result is ok. -/
theorem notify_dispatch_witness :
    twoCbState.listeners "t" "x" = some [cbThrow, cbIdle] ∧
    notifyListenersE twoCbState "t" "x" Data.errorEvt
      = .ok (notifyListeners twoCbState "t" "x" Data.errorEvt) ∧
    notifyListeners twoCbState "t" "x" Data.errorEvt = [some "boom", none] := by
  have h := notify_dispatch twoCbState "t" "x" Data.errorEvt
  exact ⟨rfl, h.1, (h.2.2 [cbThrow, cbIdle] rfl).trans rfl⟩

/-- C10: a falsy taskId (null, undefined, zero or the empty string) derives
the same key as omitting the taskId, and every operation behaves identically
to the call with taskId omitted (modelled as null, the default). -/
theorem falsy_taskId (topic : String) (taskId : TaskId) (h : taskId.truthy = false) :
    connectionKey topic taskId = topic ∧
    connectionKey topic taskId = connectionKey topic TaskId.null ∧
    (∀ base st token, connect base st token topic taskId
      = connect base st token topic TaskId.null) ∧
    (∀ st, disconnect st topic taskId = disconnect st topic TaskId.null) ∧
    (∀ st ev cb, addListener st topic taskId ev cb
      = addListener st topic TaskId.null ev cb) ∧
    (∀ st ev cb, removeListener st topic taskId ev cb
      = removeListener st topic TaskId.null ev cb) ∧
    (∀ st, getStatus st topic taskId = getStatus st topic TaskId.null) := by
  have hnull : TaskId.truthy TaskId.null = false := rfl
  have hk : connectionKey topic taskId = topic := by simp [connectionKey, h]
  have hk0 : connectionKey topic TaskId.null = topic := by simp [connectionKey, hnull]
  refine ⟨hk, hk.trans hk0.symm, ?_, ?_, ?_, ?_, ?_⟩
  · intro base st token
    simp [connect, wsUrl, hk, hk0, h, hnull]
  · intro st
    simp [disconnect, hk, hk0]
  · intro st ev cb
    simp [addListener, hk, hk0]
  · intro st ev cb
    simp [removeListener, hk, hk0]
  · intro st
    simp [getStatus, hk, hk0]

/-- Witness for falsy_taskId at taskId zero. -/
theorem falsy_taskId_witness :
    TaskId.truthy (TaskId.num 0) = false ∧
    connectionKey "jobs" (TaskId.num 0) = "jobs" :=
  ⟨by decide, (falsy_taskId "jobs" (TaskId.num 0) (by decide)).1⟩

/-- C1 counterexample: on an inbound heartbeat message with a heartbeat
listener registered, the handler does send the literal heartbeat reply, but
it also invokes the registered heartbeat listener (the dispatch runs before
the heartbeat check), so the dispatch trace is non-empty, refuting the claim
that no heartbeat listener is invoked. -/
theorem heartbeat_dispatch_counterexample :
    (onMessage hbState "jobs" (Frame.wellFormed { type := "heartbeat" })).2.2 = ["heartbeat"] ∧
    (onMessage hbState "jobs" (Frame.wellFormed { type := "heartbeat" })).2.1 = [none] ∧
    ¬ ((onMessage hbState "jobs" (Frame.wellFormed { type := "heartbeat" })).2.2 = ["heartbeat"] ∧
       (onMessage hbState "jobs" (Frame.wellFormed { type := "heartbeat" })).2.1 = []) := by
  refine ⟨by decide, by decide, ?_⟩
  intro hcl
  have := hcl.2
  simp at this
  exact absurd this (by decide)

/-- C1 amended: on an inbound message of type heartbeat over a live
connection, the handler dispatches to the listeners registered for event type
heartbeat (in insertion order, like any other type) and then sends the
literal text heartbeat back on the same connection; the state is unchanged. -/
theorem heartbeat_reply_and_dispatch (st : WSState) (key : String) (m : Msg)
    (hty : m.type = "heartbeat") (hlive : (st.connections key).isSome = true) :
    onMessage st key (Frame.wellFormed m) =
      (st, notifyListeners st key "heartbeat" (Data.msg m), ["heartbeat"]) := by
  cases hm : st.connections key with
  | none => rw [hm] at hlive; simp at hlive
  | some sock => simp [onMessage, parseFrameE, hty, hm]

/-- Witness for heartbeat_reply_and_dispatch at a concrete input. -/
theorem heartbeat_reply_witness :
    Msg.type { type := "heartbeat" } = "heartbeat" ∧
    (hbState.connections "jobs").isSome = true ∧
    onMessage hbState "jobs" (Frame.wellFormed { type := "heartbeat" }) =
      (hbState, notifyListeners hbState "jobs" "heartbeat" (Data.msg { type := "heartbeat" }),
       ["heartbeat"]) :=
  ⟨rfl, by decide, heartbeat_reply_and_dispatch hbState "jobs" { type := "heartbeat" } rfl (by decide)⟩

/-- C2 counterexample: key derivation is not injective on (topic, taskId)
pairs: the pair with topic a_1 and no taskId and the pair with topic a and
taskId 1 are distinct yet derive the same key, and a listener registered
under the second pair is invoked by a dispatch for the first pair. -/
theorem key_collision_counterexample :
    connectionKey "a_1" TaskId.null = connectionKey "a" (TaskId.str "1") ∧
    ¬ ("a_1" = "a" ∧ TaskId.null = TaskId.str "1") ∧
    notifyListeners (addListener emptyState "a" (TaskId.str "1") "evt" cbIdle)
      (connectionKey "a_1" TaskId.null) "evt" Data.errorEvt = [none] := by
  refine ⟨by decide, by decide, by decide⟩

/-- C2 amended: distinct pairs can collide on the derived key, but whenever
two pairs derive distinct keys they are fully isolated: registering a
listener under one pair changes nothing observable for the other key (so its
listeners never receive events dispatched for the other pair), and connect,
disconnect and getStatus on one pair leave the record and status of the other
key untouched. -/
theorem key_isolation (st : WSState) (topic1 topic2 : String)
    (taskId1 taskId2 : TaskId) (base : String) (token : Option String)
    (ev ev2 : String) (cb : Callback) (d : Data)
    (hne : connectionKey topic1 taskId1 ≠ connectionKey topic2 taskId2) :
    (∀ e, (addListener st topic2 taskId2 ev cb).listeners (connectionKey topic1 taskId1) e
      = st.listeners (connectionKey topic1 taskId1) e) ∧
    notifyListeners (addListener st topic2 taskId2 ev cb) (connectionKey topic1 taskId1) ev2 d
      = notifyListeners st (connectionKey topic1 taskId1) ev2 d ∧
    (connect base st token topic2 taskId2).2.connections (connectionKey topic1 taskId1)
      = st.connections (connectionKey topic1 taskId1) ∧
    (connect base st token topic2 taskId2).2.connectionStatus (connectionKey topic1 taskId1)
      = st.connectionStatus (connectionKey topic1 taskId1) ∧
    (disconnect st topic2 taskId2).2.1.connections (connectionKey topic1 taskId1)
      = st.connections (connectionKey topic1 taskId1) ∧
    (disconnect st topic2 taskId2).2.1.connectionStatus (connectionKey topic1 taskId1)
      = st.connectionStatus (connectionKey topic1 taskId1) ∧
    getStatus (disconnect st topic2 taskId2).2.1 topic1 taskId1 = getStatus st topic1 taskId1 ∧
    getStatus (connect base st token topic2 taskId2).2 topic1 taskId1 = getStatus st topic1 taskId1 := by
  have hlst : ∀ e, (addListener st topic2 taskId2 ev cb).listeners (connectionKey topic1 taskId1) e
      = st.listeners (connectionKey topic1 taskId1) e := by
    intro e
    simp [addListener, hne]
  have hconn : (connect base st token topic2 taskId2).2.connections (connectionKey topic1 taskId1)
      = st.connections (connectionKey topic1 taskId1) ∧
      (connect base st token topic2 taskId2).2.connectionStatus (connectionKey topic1 taskId1)
      = st.connectionStatus (connectionKey topic1 taskId1) := by
    cases htok : tokenTruthy token with
    | false => simp [connect, htok]
    | true =>
      cases hm : st.connections (connectionKey topic2 taskId2) with
      | some sock => simp [connect, htok, hm]
      | none => simp [connect, htok, hm, fupd, hne]
  have hdisc : (disconnect st topic2 taskId2).2.1.connections (connectionKey topic1 taskId1)
      = st.connections (connectionKey topic1 taskId1) ∧
      (disconnect st topic2 taskId2).2.1.connectionStatus (connectionKey topic1 taskId1)
      = st.connectionStatus (connectionKey topic1 taskId1) := by
    cases hm : st.connections (connectionKey topic2 taskId2) with
    | some sock => simp [disconnect, disconnectKey, hm, fupd, hne]
    | none => simp [disconnect, disconnectKey, hm]
  refine ⟨hlst, ?_, hconn.1, hconn.2, hdisc.1, hdisc.2, ?_, ?_⟩
  · simp [notifyListeners, hlst]
  · simp [getStatus, hdisc.2]
  · simp [getStatus, hconn.2]

/-- Witness for key_isolation at concrete distinct keys. -/
theorem key_isolation_witness :
    connectionKey "a" TaskId.null ≠ connectionKey "a" (TaskId.num 1) ∧
    (addListener emptyState "a" (TaskId.num 1) "evt" cbIdle).listeners
      (connectionKey "a" TaskId.null) "evt" = emptyState.listeners (connectionKey "a" TaskId.null) "evt" := by
  refine ⟨by decide, ?_⟩
  exact (key_isolation emptyState "a" "a" TaskId.null (TaskId.num 1) "b" none
    "evt" "evt" cbIdle Data.errorEvt (by decide)).1 "evt"

/-- C8: the onclose handler sets the status of the key to disconnected,
dispatches a synthetic connection event with the disconnected status to every
listener registered for event type connection under that key, deletes the
connection record, leaves the whole listener registry untouched and touches
no other key. -/
theorem onClose_spec (st : WSState) (key : String) :
    (onClose st key).1.connectionStatus key = some "disconnected" ∧
    (onClose st key).1.connections key = none ∧
    (onClose st key).1.listeners = st.listeners ∧
    (st.listeners key "connection" = none → (onClose st key).2 = []) ∧
    (∀ cbs, st.listeners key "connection" = some cbs →
      (onClose st key).2 = cbs.map (fun cb => invokeCaught cb (Data.connection "disconnected"))) ∧
    (∀ k, k ≠ key → (onClose st key).1.connections k = st.connections k ∧
      (onClose st key).1.connectionStatus k = st.connectionStatus k) := by
  refine ⟨?_, ?_, rfl, ?_, ?_, ?_⟩
  · simp [onClose, fupd]
  · simp [onClose, fupd]
  · intro hm
    simp [onClose, notifyListeners, hm]
  · intro cbs hm
    simp [onClose, notifyListeners, hm]
  · intro k hk
    simp [onClose, fupd, hk]

/-- Witness for onClose_spec at a concrete state with a connection
listener. -/
theorem onClose_spec_witness :
    hbState.listeners "jobs" "connection" = some [cbIdle] ∧
    (onClose hbState "jobs").2 = [none] ∧
    (onClose hbState "jobs").1.connections "jobs" = none ∧
    "other" ≠ "jobs" ∧
    (onClose hbState "jobs").1.connections "other" = hbState.connections "other" := by
  have h := onClose_spec hbState "jobs"
  refine ⟨rfl, ?_, h.2.1, by decide, (h.2.2.2.2.2 "other" (by decide)).1⟩
  exact (h.2.2.2.2.1 [cbIdle] rfl).trans rfl

/-- The onmessage handler never mutates the service state. -/
theorem onMessage_state (st : WSState) (key : String) (f : Frame) :
    (onMessage st key f).1 = st := by
  cases f with
  | malformed raw => rfl
  | wellFormed m =>
    simp only [onMessage, parseFrameE]
    split
    · cases st.connections key <;> rfl
    · rfl

/-- Status at the key after the open callback. -/
theorem getStatusKey_open (st : WSState) (key : String) :
    getStatusKey (stepEvent st key .openEvt) key = "connected" := by
  have h : (stepEvent st key .openEvt).connectionStatus key = some "connected" := by
    simp [stepEvent, onOpen, fupd]
  unfold getStatusKey
  rw [h]
  decide

/-- State after a message event. -/
theorem stepEvent_message (st : WSState) (key : String) (f : Frame) :
    stepEvent st key (.message f) = st := by
  simp [stepEvent, onMessage_state]

/-- Status at the key after the error callback. -/
theorem getStatusKey_error (st : WSState) (key : String) :
    getStatusKey (stepEvent st key .errorEvt) key = "error" := by
  have h : (stepEvent st key .errorEvt).connectionStatus key = some "error" := by
    simp [stepEvent, onError, fupd]
  unfold getStatusKey
  rw [h]
  decide

/-- Status at the key after the close callback. -/
theorem getStatusKey_close (st : WSState) (key : String) :
    getStatusKey (stepEvent st key .closeEvt) key = "disconnected" := by
  have h : (stepEvent st key .closeEvt).connectionStatus key = some "disconnected" := by
    simp [stepEvent, onClose, fupd]
  unfold getStatusKey
  rw [h]
  decide

/-- Status at the key after a disconnect call on a live record. -/
theorem getStatusKey_disconnect_some (st : WSState) (key : String) (sock : Socket)
    (hm : st.connections key = some sock) :
    getStatusKey (stepEvent st key .disconnectCall) key = "disconnected" := by
  have h : (stepEvent st key .disconnectCall).connectionStatus key = some "disconnected" := by
    simp [stepEvent, disconnectKey, hm, fupd]
  unfold getStatusKey
  rw [h]
  decide

/-- State after a disconnect call with no live record. -/
theorem stepEvent_disconnect_none (st : WSState) (key : String)
    (hm : st.connections key = none) :
    stepEvent st key .disconnectCall = st := by
  simp [stepEvent, disconnectKey, hm]

/-- Absence of open and error callbacks implies absence of open callbacks. -/
theorem noOpen_of_noOpenErr (es : List WSEvent) : noOpenErr es = true → noOpen es = true := by
  induction es with
  | nil => intro _; rfl
  | cons e es ih =>
    intro h
    simp only [noOpenErr, Bool.and_eq_true] at h
    simp only [noOpen, Bool.and_eq_true]
    exact ⟨h.1.1, ih h.2⟩

/-- Run invariant tying the recorded status of the instance to the events
still to come: the status is one of the four values, and once the status is
error or disconnected the open callback cannot still fire. -/
abbrev statusInv (st : WSState) (key : String) (es : List WSEvent) : Prop :=
  (getStatusKey st key = "connecting" ∨ getStatusKey st key = "connected" ∨
   getStatusKey st key = "error" ∨ getStatusKey st key = "disconnected") ∧
  ((getStatusKey st key = "error" ∨ getStatusKey st key = "disconnected") →
    noOpen es = true)

/-- One step of a valid run takes a transition of the implemented relation
and preserves the run invariant. -/
theorem statusStep_allowed (st : WSState) (key : String) (e : WSEvent) (es : List WSEvent)
    (hv : validRun (e :: es) = true) (hinv : statusInv st key (e :: es)) :
    validRun es = true ∧
    allowedStepAmended (getStatusKey st key) (getStatusKey (stepEvent st key e) key) = true ∧
    statusInv (stepEvent st key e) key es := by
  obtain ⟨hs, hno⟩ := hinv
  cases e with
  | openEvt =>
    have hv2 : validRun es = true := by simpa [validRun] using hv
    have h1 := getStatusKey_open st key
    refine ⟨hv2, ?_, ?_⟩
    · rw [h1]
      rcases hs with h | h | h | h
      · rw [h]; decide
      · rw [h]; decide
      · exact absurd (hno (Or.inl h)) (by simp [noOpen, WSEvent.isOpen])
      · exact absurd (hno (Or.inr h)) (by simp [noOpen, WSEvent.isOpen])
    · refine ⟨?_, ?_⟩ <;> rw [h1]
      · exact Or.inr (Or.inl rfl)
      · intro h
        rcases h with h | h <;> exact absurd h (by decide)
  | message f =>
    have hv2 : validRun es = true := by simpa [validRun] using hv
    rw [stepEvent_message]
    refine ⟨hv2, by simp [allowedStepAmended, allowedStep], hs, ?_⟩
    intro h
    have h2 := hno h
    simpa [noOpen, WSEvent.isOpen] using h2
  | errorEvt =>
    have hv12 : noOpen es = true ∧ validRun es = true := by simpa [validRun] using hv
    have h1 := getStatusKey_error st key
    refine ⟨hv12.2, ?_, ?_⟩
    · rw [h1]
      rcases hs with h | h | h | h <;> rw [h] <;> decide
    · refine ⟨?_, ?_⟩ <;> rw [h1]
      · exact Or.inr (Or.inr (Or.inl rfl))
      · intro _; exact hv12.1
  | closeEvt =>
    have hv12 : noOpenErr es = true ∧ validRun es = true := by simpa [validRun] using hv
    have h1 := getStatusKey_close st key
    refine ⟨hv12.2, ?_, ?_⟩
    · rw [h1]
      rcases hs with h | h | h | h <;> rw [h] <;> decide
    · refine ⟨?_, ?_⟩ <;> rw [h1]
      · exact Or.inr (Or.inr (Or.inr rfl))
      · intro _; exact noOpen_of_noOpenErr es hv12.1
  | disconnectCall =>
    have hv12 : noOpen es = true ∧ validRun es = true := by simpa [validRun] using hv
    cases hm : st.connections key with
    | some sock =>
      have h1 := getStatusKey_disconnect_some st key sock hm
      refine ⟨hv12.2, ?_, ?_⟩
      · rw [h1]
        rcases hs with h | h | h | h <;> rw [h] <;> decide
      · refine ⟨?_, ?_⟩ <;> rw [h1]
        · exact Or.inr (Or.inr (Or.inr rfl))
        · intro _; exact hv12.1
    | none =>
      rw [stepEvent_disconnect_none st key hm]
      refine ⟨hv12.2, by simp [allowedStepAmended, allowedStep], hs, ?_⟩
      intro h
      have h2 := hno h
      simpa [noOpen, WSEvent.isOpen] using h2

/-- Chain lemma: on a valid run, successive recorded statuses always stand in
the implemented transition relation. -/
theorem statusChainAux (es : List WSEvent) : ∀ (st : WSState) (key : String),
    validRun es = true → statusInv st key es →
    chainB allowedStepAmended (getStatusKey st key) (statusTrace st key es) = true := by
  induction es with
  | nil =>
    intro st key _ _
    rfl
  | cons e es ih =>
    intro st key hv hinv
    obtain ⟨hv2, ha, hinv2⟩ := statusStep_allowed st key e es hv hinv
    simp only [statusTrace, chainB, Bool.and_eq_true]
    exact ⟨ha, ih _ key hv2 hinv2⟩

/-- Demonstration run: open, one data message, a transport error, the close
callback, then a late application disconnect call. -/
def demoRun : List WSEvent :=
  [WSEvent.openEvt, WSEvent.message (Frame.wellFormed { type := "x" }),
   WSEvent.errorEvt, WSEvent.closeEvt, WSEvent.disconnectCall]

/-- Run of a still-connecting socket the application disconnects: the close
call fails the connection, so the transport fires error and then close. -/
def buggyRun : List WSEvent :=
  [WSEvent.disconnectCall, WSEvent.errorEvt, WSEvent.closeEvt]

/-- Concrete state of a freshly created instance under key jobs. -/
def connectingState : WSState :=
  { connections := fun k => if k = "jobs" then some { id := 0, url := "u" } else none
    listeners := fun _ _ => none
    connectionStatus := fun k => if k = "jobs" then some "connecting" else none
    nextSocketId := 1 }

/-- C9 counterexample: disconnecting a still-connecting socket and letting the
transport fail it (error then close, a run the browser ordering permits)
drives the recorded status disconnected, error, disconnected: the error
callback overwrites disconnected with error, so the status does transition
out of disconnected for this instance, and the monotone relation of the claim
rejects the trace. -/
theorem status_out_of_disconnected_counterexample :
    validRun buggyRun = true ∧
    getStatusKey connectingState "jobs" = "connecting" ∧
    statusTrace connectingState "jobs" buggyRun = ["disconnected", "error", "disconnected"] ∧
    chainB allowedStep (getStatusKey connectingState "jobs")
      (statusTrace connectingState "jobs" buggyRun) = false :=
  ⟨by decide, by decide, by decide, by decide⟩

/-- C9 amended: starting from a fresh instance (status connecting), on any run
of transport events respecting the browser ordering (no open after error,
close or an application disconnect; no error after the close callback), every
consecutive pair of recorded statuses moves along connecting, connected,
error, disconnected — except that a status of disconnected may be overwritten
with error, when the error callback of a socket the application already
disconnected fires; the only move out of disconnected leads to error, whose
only move leads back to disconnected. -/
theorem status_monotonic_amended (es : List WSEvent) (st : WSState) (key : String)
    (hv : validRun es = true) (h0 : getStatusKey st key = "connecting") :
    chainB allowedStepAmended (getStatusKey st key) (statusTrace st key es) = true ∧
    (∀ t, allowedStepAmended "disconnected" t = true → t = "disconnected" ∨ t = "error") := by
  constructor
  · refine statusChainAux es st key hv ⟨Or.inl h0, ?_⟩
    rw [h0]
    intro h
    rcases h with h | h <;> exact absurd h (by decide)
  · intro t h
    simp [allowedStepAmended, allowedStep] at h
    rcases h with h | h
    · exact Or.inl h.symm
    · exact Or.inr h

/-- Witness for status_monotonic_amended, on the full-lifecycle run and on the
run where the error callback overwrites a disconnected status. -/
theorem status_monotonic_amended_witness :
    validRun demoRun = true ∧
    validRun buggyRun = true ∧
    getStatusKey connectingState "jobs" = "connecting" ∧
    chainB allowedStepAmended (getStatusKey connectingState "jobs")
      (statusTrace connectingState "jobs" demoRun) = true ∧
    chainB allowedStepAmended (getStatusKey connectingState "jobs")
      (statusTrace connectingState "jobs" buggyRun) = true :=
  ⟨by decide, by decide, by decide,
   (status_monotonic_amended demoRun connectingState "jobs" (by decide) (by decide)).1,
   (status_monotonic_amended buggyRun connectingState "jobs" (by decide) (by decide)).1⟩

end FinexiaWS
